import Mathlib

/-!
Verification of the solo machine light client update logic
(`modules/light-clients/06-solomachine/types/update.go`).

The Go code is shallowly embedded as pure Lean functions. External
collaborators (protobuf codec, sign-bytes construction and the cryptographic
signature-verification primitive, all of which live outside the verified file)
are modelled as an explicit environment `Env` of total functions returning
`Except Err`, so theorems quantify over every possible collaborator behaviour.
The `sdk.KVStore` parameter of `CheckHeaderAndUpdateState`, never touched by
the Go function, is threaded through the result unchanged so that
no-mutation properties can be stated. Go `uint64` counters are modelled as
`Nat` with an explicit `% 2 ^ 64` at the single place arithmetic happens
(the sequence increment in `update`).
-/

namespace SoloMachine

/-- Opaque byte strings (signatures, sign-bytes, store keys and values). -/
abbrev Bytes := List Nat

/-- A protobuf `Any` holding a public key, as stored in `ConsensusState.PublicKey`
and `Header.NewPublicKey`; opaque to this file. -/
abbrev AnyPubKey := Nat

/-- An unpacked cryptographic public key, the result of `GetPubKey`; opaque. -/
abbrev PublicKey := Nat

/-- A decoded `signing.SignatureData`; opaque to this file. -/
abbrev SignatureData := Nat

/-- The `sdk.KVStore` handed to `CheckHeaderAndUpdateState`; the Go code never
reads or writes it, so its representation is irrelevant. -/
abbrev KVStore := List (Bytes × Bytes)

/-- `ConsensusState`: the currently trusted public key, the diversifier salt and
the timestamp of the last accepted update. -/
structure ConsensusState where
  publicKey : AnyPubKey
  diversifier : String
  timestamp : Nat
deriving DecidableEq

/-- `ClientState`: the solo machine sequence counter (Go `uint64`) and the owned
current consensus state. -/
structure ClientState where
  sequence : Nat
  consensusState : ConsensusState
deriving DecidableEq

/-- `Header`: an untrusted single-update proposal. -/
structure Header where
  sequence : Nat
  timestamp : Nat
  signature : Bytes
  newPublicKey : AnyPubKey
  newDiversifier : String
deriving DecidableEq

/-- One signed statement of a misbehaviour proof: the signature blob, the signed
payload and its claimed timestamp. -/
structure SignatureAndData where
  signature : Bytes
  data : Bytes
  timestamp : Nat
deriving DecidableEq

/-- `DuplicateSignatures`: a misbehaviour proof binding two signed statements to
the same sequence number. -/
structure DuplicateSignatures where
  sequence : Nat
  signatureOne : SignatureAndData
  signatureTwo : SignatureAndData
deriving DecidableEq

/-- The dynamic `exported.Header` argument: the Go code switches on the concrete
type, with a default case for anything unrecognized. -/
inductive HeaderInput where
  | header (h : Header)
  | duplicateSignatures (m : DuplicateSignatures)
  | other (description : String)
deriving DecidableEq

/-- Registered base error values, mirroring the sdk error registry entries the
file wraps: `clienttypes.ErrInvalidHeader`, the solo machine package
`ErrInvalidHeader` (used for signature failures), `sdkerrors.ErrInvalidType`,
the no-equivocation rejection of misbehaviour validation, and opaque errors
produced by external collaborators. -/
inductive BaseErr where
  | clientInvalidHeader
  | smInvalidHeader
  | sdkInvalidType
  | noEquivocation
  | external (code : Nat)
deriving DecidableEq

/-- Errors: a registered base error, possibly wrapped with messages as by
`sdkerrors.Wrap` and `sdkerrors.Wrapf`. -/
inductive Err where
  | base (b : BaseErr)
  | wrap (msg : String) (e : Err)
deriving DecidableEq

/-- Rendered message of a base error. -/
def BaseErr.message : BaseErr → String
  | .clientInvalidHeader => "invalid header"
  | .smInvalidHeader => "invalid header"
  | .sdkInvalidType => "invalid type"
  | .noEquivocation => "invalid misbehaviour"
  | .external code => "external error " ++ toString code

/-- The Go `err.Error()` string: `sdkerrors.Wrap` prepends its message. -/
def Err.message : Err → String
  | .base b => b.message
  | .wrap m e => m ++ ": " ++ e.message

/-- The registered base error at the root of a wrap chain (what
`errors.Is` matches against). -/
def Err.root : Err → BaseErr
  | .base b => b
  | .wrap _ e => e.root

/-- External collaborators of the verified file: sign-bytes construction
(`HeaderSignBytes`, `MisbehaviourSignBytes`), signature decoding
(`UnmarshalSignatureData`), key unpacking (`ConsensusState.GetPubKey`) and the
cryptographic primitive (`VerifySignature`). All are deterministic functions;
theorems quantify over every such environment. -/
structure Env where
  headerSignBytes : Header → Except Err Bytes
  misbehaviourSignBytes : Nat → Nat → String → Bytes → Except Err Bytes
  unmarshalSignatureData : Bytes → Except Err SignatureData
  getPubKey : AnyPubKey → Except Err PublicKey
  verifySignature : PublicKey → Bytes → SignatureData → Except Err Unit

/-- The error returned when the header sequence does not match the client state
sequence: `sdkerrors.Wrapf(clienttypes.ErrInvalidHeader, ...)`. -/
def seqMismatchErr (hseq cseq : Nat) : Err :=
  .wrap ("header sequence does not match the client state sequence ("
      ++ toString hseq ++ " != " ++ toString cseq ++ ")")
    (.base .clientInvalidHeader)

/-- The error returned when the header timestamp is less than the consensus
state timestamp: `sdkerrors.Wrapf(clienttypes.ErrInvalidHeader, ...)`. -/
def tsRegressionErr (hts csts : Nat) : Err :=
  .wrap ("header timestamp is less than to the consensus state timestamp ("
      ++ toString hts ++ " < " ++ toString csts ++ ")")
    (.base .clientInvalidHeader)

/-- The error returned when the signature primitive fails:
`sdkerrors.Wrap(ErrInvalidHeader, err.Error())` with the solo machine package
error as base. -/
def sigVerificationErr (primitiveMsg : String) : Err :=
  .wrap primitiveMsg (.base .smInvalidHeader)

/-- The default-case error of the type switch:
`sdkerrors.Wrapf(sdkerrors.ErrInvalidType, "unexpected type for header: %s", ...)`. -/
def unexpectedTypeErr (description : String) : Err :=
  .wrap ("unexpected type for header: " ++ description) (.base .sdkInvalidType)

/-- Modelled from the spec: the repository helper `verifySignatureAndData` is
not under `src/` (only its caller in `update.go` is). Per section 4.4 step 1 it
verifies one misbehaviour signature against the current trusted public key,
over sign-bytes built from the proof sequence, the signature entry timestamp,
the current diversifier and the signed payload, using the same decoding and
verification primitive as the header path. -/
def verifySignatureAndData (env : Env) (cs : ClientState) (m : DuplicateSignatures)
    (sigAndData : SignatureAndData) : Except Err Unit :=
  match env.misbehaviourSignBytes m.sequence sigAndData.timestamp
      cs.consensusState.diversifier sigAndData.data with
  | .error e => .error e
  | .ok data =>
    match env.unmarshalSignatureData sigAndData.signature with
    | .error e => .error e
    | .ok sigData =>
      match env.getPubKey cs.consensusState.publicKey with
      | .error e => .error e
      | .ok publicKey => env.verifySignature publicKey data sigData

/-- `ClientState.VerifyHeader`: checks if the solo machine update signature is
valid. Direct translation of the Go type switch: for a `*Header`, sequence
equality, then timestamp non-regression, then sign-bytes construction,
signature decoding, key unpacking and signature verification; for a
`*DuplicateSignatures`, both signatures verified in order; any other type is
rejected with `ErrInvalidType`. -/
def VerifyHeader (env : Env) (cs : ClientState) (header : HeaderInput) : Except Err Unit :=
  match header with
  | .header h =>
    if h.sequence ≠ cs.sequence then
      .error (seqMismatchErr h.sequence cs.sequence)
    else if h.timestamp < cs.consensusState.timestamp then
      .error (tsRegressionErr h.timestamp cs.consensusState.timestamp)
    else
      match env.headerSignBytes h with
      | .error e => .error e
      | .ok data =>
        match env.unmarshalSignatureData h.signature with
        | .error e => .error e
        | .ok sigData =>
          match env.getPubKey cs.consensusState.publicKey with
          | .error e => .error e
          | .ok publicKey =>
            match env.verifySignature publicKey data sigData with
            | .error e => .error (sigVerificationErr e.message)
            | .ok _ => .ok ()
  | .duplicateSignatures m =>
    match verifySignatureAndData env cs m m.signatureOne with
    | .error e => .error (.wrap "failed to verify signature one" e)
    | .ok _ =>
      match verifySignatureAndData env cs m m.signatureTwo with
      | .error e => .error (.wrap "failed to verify signature two" e)
      | .ok _ => .ok ()
  | .other d => .error (unexpectedTypeErr d)

/-- The `update` helper: builds the next consensus state from the header and
increments the sequence. `Sequence` is a Go `uint64`, so `Sequence++` wraps
modulo `2 ^ 64`. -/
def update (clientState : ClientState) (header : Header) : ClientState × ConsensusState :=
  let consensusState : ConsensusState :=
    { publicKey := header.newPublicKey
      diversifier := header.newDiversifier
      timestamp := header.timestamp }
  ({ clientState with
      sequence := (clientState.sequence + 1) % 2 ^ 64
      consensusState := consensusState },
    consensusState)

/-- The three return values of the Go `CheckHeaderAndUpdateState`
(`exported.ClientState`, `exported.ConsensusState`, `error`, each possibly
`nil`), plus the `KVStore` as left behind by the call. -/
structure UpdateResult where
  clientState : Option ClientState
  consensusState : Option ConsensusState
  err : Option Err
  store : KVStore
deriving DecidableEq

/-- `ClientState.CheckHeaderAndUpdateState`: verifies the header and, when the
input is a `*Header`, applies `update`; any other input that passed
verification falls through to the final `return nil, nil, nil`. The store is
returned unchanged because the Go function never touches it. -/
def CheckHeaderAndUpdateState (env : Env) (cs : ClientState) (clientStore : KVStore)
    (header : HeaderInput) : UpdateResult :=
  match VerifyHeader env cs header with
  | .error e => ⟨none, none, some e, clientStore⟩
  | .ok _ =>
    match header with
    | .header h =>
      let res := update cs h
      ⟨some res.1, some res.2, none, clientStore⟩
    | _ => ⟨none, none, none, clientStore⟩

/-- Outcome of successful misbehaviour validation: the client is to be frozen. -/
inductive Frozen where
  | frozen
deriving DecidableEq

/-- The rejection of a misbehaviour proof whose two statements carry identical
signed payloads. -/
def noEquivocationErr : Err :=
  .wrap "misbehaviour signatures are over identical data" (.base .noEquivocation)

/-- Modelled from the spec: `CheckMisbehaviourAndUpdateState` (section 4.4) is
not under `src/`; only the closely related `DuplicateSignatures` branch of
`VerifyHeader` is. Steps 1 and 2 verify each signature independently against
the current trusted key (same construction as `VerifyHeader`, so the in-`src/`
branch structure is mirrored exactly); step 3 rejects the proof when the two
signed payloads are identical; step 4 reports that the client transitions to
frozen. -/
def CheckMisbehaviourAndUpdateState (env : Env) (cs : ClientState)
    (m : DuplicateSignatures) : Except Err Frozen :=
  match verifySignatureAndData env cs m m.signatureOne with
  | .error e => .error (.wrap "failed to verify signature one" e)
  | .ok _ =>
    match verifySignatureAndData env cs m m.signatureTwo with
    | .error e => .error (.wrap "failed to verify signature two" e)
    | .ok _ =>
      if m.signatureOne.data = m.signatureTwo.data then
        .error noEquivocationErr
      else
        .ok .frozen

/-- An environment in which every collaborator call succeeds: sign-bytes are
empty, decoding yields a fixed blob, key unpacking yields a fixed key, and the
primitive accepts every signature. Used to exercise acceptance paths on
concrete inputs. -/
def acceptAllEnv : Env :=
  ⟨fun _ => .ok [], fun _ _ _ _ => .ok [], fun _ => .ok 7, fun _ => .ok 3,
    fun _ _ _ => .ok ()⟩

/-- An environment identical to `acceptAllEnv` except that the signature
primitive rejects everything with an opaque error. Used to exercise
signature-failure paths on concrete inputs. -/
def rejectSigEnv : Env :=
  ⟨fun _ => .ok [], fun _ _ _ _ => .ok [], fun _ => .ok 7, fun _ => .ok 3,
    fun _ _ _ => .error (.base (.external 9))⟩

/-- An environment in which decoding the signature blob fails with an opaque
error, all other collaborator calls succeeding. Used to exercise the
malformed-encoding path on concrete inputs. -/
def malformedSigEnv : Env :=
  ⟨fun _ => .ok [], fun _ _ _ _ => .ok [], fun _ => .error (.base (.external 4)),
    fun _ => .ok 3, fun _ _ _ => .ok ()⟩

/-- An environment that accepts exactly the signatures decoding to `0` (here:
empty signature blobs) and rejects all others. Used to make the first
misbehaviour signature verify while the second fails. -/
def rejectSecondSigEnv : Env :=
  ⟨fun _ => .ok [], fun _ _ _ _ => .ok [], fun b => .ok b.length, fun _ => .ok 3,
    fun _ _ sigData => if sigData = 0 then .ok () else .error (.base (.external 9))⟩

/-- A small concrete client state for witnesses: sequence 5, timestamp 100. -/
def demoCS : ClientState := ⟨5, ⟨0, "div", 100⟩⟩

/-- A client state whose sequence sits at the maximum `uint64` value. -/
def maxSeqCS : ClientState := ⟨2 ^ 64 - 1, ⟨0, "div", 100⟩⟩

/-- A concrete misbehaviour proof with two distinct signed payloads. -/
def demoMisb : DuplicateSignatures := ⟨5, ⟨[], [1], 100⟩, ⟨[1], [2], 100⟩⟩

/-- A concrete misbehaviour proof whose two statements sign the same payload. -/
def identicalDataMisb : DuplicateSignatures := ⟨5, ⟨[], [1], 100⟩, ⟨[2], [1], 100⟩⟩

/-- Helper: the store component of the result always equals the input store;
the Go function performs no store operation on any path. -/
theorem checkHeaderAndUpdateState_store_eq
    (env : Env) (cs : ClientState) (store : KVStore) (input : HeaderInput) :
    (CheckHeaderAndUpdateState env cs store input).store = store := by
  unfold CheckHeaderAndUpdateState
  cases VerifyHeader env cs input with
  | error e => rfl
  | ok u => cases input <;> rfl

/-- Helper: whenever `CheckHeaderAndUpdateState` reports an error, the full
result is exactly (no client state, no consensus state, that error, the
untouched store). -/
theorem checkHeaderAndUpdateState_error_eq
    (env : Env) (cs : ClientState) (store : KVStore) (input : HeaderInput) (e : Err)
    (herr : (CheckHeaderAndUpdateState env cs store input).err = some e) :
    CheckHeaderAndUpdateState env cs store input = ⟨none, none, some e, store⟩ := by
  unfold CheckHeaderAndUpdateState at herr ⊢
  cases hv : VerifyHeader env cs input with
  | error e2 =>
    rw [hv] at herr
    simp at herr
    simp [herr]
  | ok u =>
    rw [hv] at herr
    cases input with
    | header h => simp at herr
    | duplicateSignatures m => simp at herr
    | other d => simp at herr

/-- Claim C2: for every client state and header with a sequence different from
the client state sequence (whether smaller or larger), the update is rejected
with the stale-or-future-sequence error wrapping `clienttypes.ErrInvalidHeader`
and no new client or consensus state is returned. -/
theorem checkHeader_seq_mismatch_rejected
    (env : Env) (cs : ClientState) (store : KVStore) (h : Header)
    (hne : h.sequence ≠ cs.sequence) :
    CheckHeaderAndUpdateState env cs store (.header h) =
      ⟨none, none, some (seqMismatchErr h.sequence cs.sequence), store⟩ := by
  unfold CheckHeaderAndUpdateState VerifyHeader
  simp [hne]

/-- Witness for C2, at a stale sequence (4 against 5) and at a future
sequence (6 against 5). -/
theorem checkHeader_seq_mismatch_rejected_witness :
    CheckHeaderAndUpdateState acceptAllEnv demoCS [] (.header ⟨4, 100, [], 1, "d"⟩) =
      ⟨none, none, some (seqMismatchErr 4 5), []⟩ ∧
    CheckHeaderAndUpdateState acceptAllEnv demoCS [] (.header ⟨6, 100, [], 1, "d"⟩) =
      ⟨none, none, some (seqMismatchErr 6 5), []⟩ :=
  ⟨checkHeader_seq_mismatch_rejected _ _ _ _ (by decide),
    checkHeader_seq_mismatch_rejected _ _ _ _ (by decide)⟩

/-- Claim C10: header validation checks sequence equality first. On a sequence
mismatch the sequence error is returned for every environment, and the result
coincides for any two environments — so no sign-bytes construction, signature
decoding, key unpacking or signature verification influences the outcome,
regardless of whether the timestamp also regresses or the signature is also
invalid. -/
theorem verifyHeader_seq_checked_first
    (cs : ClientState) (h : Header) (hne : h.sequence ≠ cs.sequence) :
    ∀ env envAlt : Env,
      VerifyHeader env cs (.header h) = .error (seqMismatchErr h.sequence cs.sequence) ∧
      VerifyHeader env cs (.header h) = VerifyHeader envAlt cs (.header h) := by
  intro env envAlt
  constructor
  · unfold VerifyHeader
    simp [hne]
  · unfold VerifyHeader
    simp [hne]

/-- Witness for C10: a header whose sequence mismatches and whose timestamp
also regresses gets the sequence error under an environment whose signature
primitive rejects everything, and the result agrees with the accept-all
environment. -/
theorem verifyHeader_seq_checked_first_witness :
    (⟨4, 50, [], 1, "d"⟩ : Header).timestamp < demoCS.consensusState.timestamp ∧
    VerifyHeader rejectSigEnv demoCS (.header ⟨4, 50, [], 1, "d"⟩) =
      .error (seqMismatchErr 4 5) ∧
    VerifyHeader rejectSigEnv demoCS (.header ⟨4, 50, [], 1, "d"⟩) =
      VerifyHeader acceptAllEnv demoCS (.header ⟨4, 50, [], 1, "d"⟩) :=
  ⟨by decide,
    (verifyHeader_seq_checked_first demoCS _ (by decide) rejectSigEnv acceptAllEnv).1,
    (verifyHeader_seq_checked_first demoCS _ (by decide) rejectSigEnv acceptAllEnv).2⟩

/-- Claim C3: with matching sequence, a header whose timestamp is strictly less
than the consensus state timestamp is rejected with the timestamp-regression
error, while a header whose timestamp is exactly equal passes the timestamp
check and is accepted whenever the remaining signature steps succeed. -/
theorem verifyHeader_timestamp_rule
    (env : Env) (cs : ClientState) (store : KVStore) (h : Header)
    (hseq : h.sequence = cs.sequence) :
    (h.timestamp < cs.consensusState.timestamp →
      CheckHeaderAndUpdateState env cs store (.header h) =
        ⟨none, none, some (tsRegressionErr h.timestamp cs.consensusState.timestamp), store⟩) ∧
    (h.timestamp = cs.consensusState.timestamp →
      ∀ data sigData pk,
        env.headerSignBytes h = .ok data →
        env.unmarshalSignatureData h.signature = .ok sigData →
        env.getPubKey cs.consensusState.publicKey = .ok pk →
        env.verifySignature pk data sigData = .ok () →
        CheckHeaderAndUpdateState env cs store (.header h) =
          ⟨some (update cs h).1, some (update cs h).2, none, store⟩) := by
  constructor
  · intro hlt
    unfold CheckHeaderAndUpdateState VerifyHeader
    simp [hseq, hlt]
  · intro heq data sigData pk hsb hum hpk hvs
    unfold CheckHeaderAndUpdateState VerifyHeader
    simp [hseq, heq, hsb, hum, hpk, hvs]

/-- Witness for C3: against a consensus timestamp of 100, a header at 99 is
rejected with the timestamp-regression error and a header at exactly 100 is
accepted. -/
theorem verifyHeader_timestamp_rule_witness :
    CheckHeaderAndUpdateState acceptAllEnv demoCS [] (.header ⟨5, 99, [], 1, "d"⟩) =
      ⟨none, none, some (tsRegressionErr 99 100), []⟩ ∧
    CheckHeaderAndUpdateState acceptAllEnv demoCS [] (.header ⟨5, 100, [], 1, "d"⟩) =
      ⟨some ⟨6, ⟨1, "d", 100⟩⟩, some ⟨1, "d", 100⟩, none, []⟩ :=
  ⟨(verifyHeader_timestamp_rule acceptAllEnv demoCS [] ⟨5, 99, [], 1, "d"⟩ rfl).1
      (by decide),
    ((verifyHeader_timestamp_rule acceptAllEnv demoCS [] ⟨5, 100, [], 1, "d"⟩ rfl).2
      rfl [] 7 3 rfl rfl rfl rfl).trans (by decide)⟩

/-- Claim C1 (amended): whenever a header passes all of `VerifyHeader`, the
returned client state carries sequence `(C.Sequence + 1) % 2 ^ 64` — exactly
`C.Sequence + 1` for every sequence below the `uint64` maximum — and the
returned consensus state carries the header new public key, new diversifier
and timestamp. -/
theorem checkHeader_accept_result
    (env : Env) (cs : ClientState) (store : KVStore) (h : Header)
    (hok : VerifyHeader env cs (.header h) = .ok ()) :
    CheckHeaderAndUpdateState env cs store (.header h) =
      ⟨some ⟨(cs.sequence + 1) % 2 ^ 64, ⟨h.newPublicKey, h.newDiversifier, h.timestamp⟩⟩,
        some ⟨h.newPublicKey, h.newDiversifier, h.timestamp⟩, none, store⟩ := by
  unfold CheckHeaderAndUpdateState
  rw [hok]
  simp [update]

/-- Witness for C1 (amended): at sequence 5 the accepted update yields sequence
6 = 5 + 1, with the consensus state taken from the header fields. -/
theorem checkHeader_accept_result_witness :
    CheckHeaderAndUpdateState acceptAllEnv demoCS [] (.header ⟨5, 150, [], 42, "d2"⟩) =
      ⟨some ⟨(5 + 1) % 2 ^ 64, ⟨42, "d2", 150⟩⟩, some ⟨42, "d2", 150⟩, none, []⟩ ∧
    (5 + 1) % 2 ^ 64 = demoCS.sequence + 1 :=
  ⟨checkHeader_accept_result acceptAllEnv demoCS [] ⟨5, 150, [], 42, "d2"⟩ rfl,
    by decide⟩

/-- Counterexample to C1 as stated: at the maximum `uint64` sequence the Go
`Sequence++` wraps, so a header passing every check yields a next sequence of
`0`, not `C.Sequence + 1`. -/
theorem checkHeader_sequence_wraps_at_uint64_max :
    VerifyHeader acceptAllEnv maxSeqCS (.header ⟨2 ^ 64 - 1, 100, [], 1, "d"⟩) = .ok () ∧
    (CheckHeaderAndUpdateState acceptAllEnv maxSeqCS []
        (.header ⟨2 ^ 64 - 1, 100, [], 1, "d"⟩)).clientState =
      some ⟨0, ⟨1, "d", 100⟩⟩ ∧
    (0 : Nat) ≠ maxSeqCS.sequence + 1 :=
  ⟨rfl, by decide, by decide⟩

/-- Claim C4: with matching sequence and non-regressing timestamp, a malformed
signature encoding surfaces the decoder error as the rejection, and a
signature the primitive rejects — verified against the key unpacked from the
current consensus state, never the proposed new key — is rejected with the
solo machine invalid-header error wrapping the primitive message; in both
cases no new state is returned. -/
theorem verifyHeader_signature_rule
    (env : Env) (cs : ClientState) (store : KVStore) (h : Header) (data : Bytes)
    (hseq : h.sequence = cs.sequence)
    (hts : ¬h.timestamp < cs.consensusState.timestamp)
    (hsb : env.headerSignBytes h = .ok data) :
    (∀ e, env.unmarshalSignatureData h.signature = .error e →
      CheckHeaderAndUpdateState env cs store (.header h) = ⟨none, none, some e, store⟩) ∧
    (∀ sigData pk e,
      env.unmarshalSignatureData h.signature = .ok sigData →
      env.getPubKey cs.consensusState.publicKey = .ok pk →
      env.verifySignature pk data sigData = .error e →
      CheckHeaderAndUpdateState env cs store (.header h) =
        ⟨none, none, some (sigVerificationErr e.message), store⟩) := by
  constructor
  · intro e hum
    unfold CheckHeaderAndUpdateState VerifyHeader
    simp [hseq, hts, hsb, hum]
  · intro sigData pk e hum hpk hvs
    unfold CheckHeaderAndUpdateState VerifyHeader
    simp [hseq, hts, hsb, hum, hpk, hvs]

/-- Witness for C4: a malformed signature blob surfaces the decoder error, and
a primitive rejection produces the invalid-header wrap of the primitive
message, on an otherwise valid header. -/
theorem verifyHeader_signature_rule_witness :
    CheckHeaderAndUpdateState malformedSigEnv demoCS [] (.header ⟨5, 100, [], 1, "d"⟩) =
      ⟨none, none, some (.base (.external 4)), []⟩ ∧
    CheckHeaderAndUpdateState rejectSigEnv demoCS [] (.header ⟨5, 100, [], 1, "d"⟩) =
      ⟨none, none, some (sigVerificationErr (Err.message (.base (.external 9)))), []⟩ :=
  ⟨(verifyHeader_signature_rule malformedSigEnv demoCS [] ⟨5, 100, [], 1, "d"⟩ []
      rfl (by decide) rfl).1 (.base (.external 4)) rfl,
    (verifyHeader_signature_rule rejectSigEnv demoCS [] ⟨5, 100, [], 1, "d"⟩ []
      rfl (by decide) rfl).2 7 3 (.base (.external 9)) rfl rfl rfl⟩

/-- Claim C5: whenever `CheckHeaderAndUpdateState` returns an error, nothing is
mutated — the result carries no new client state, no new consensus state, and
the store exactly as it was handed in; the embedding is a pure function of its
inputs, matching the Go value receiver that never writes the store. -/
theorem checkHeader_error_no_partial_update
    (env : Env) (cs : ClientState) (store : KVStore) (input : HeaderInput) (e : Err)
    (herr : (CheckHeaderAndUpdateState env cs store input).err = some e) :
    CheckHeaderAndUpdateState env cs store input = ⟨none, none, some e, store⟩ :=
  checkHeaderAndUpdateState_error_eq env cs store input e herr

/-- Witness for C5 at a concrete rejected header (stale sequence 4 against 5). -/
theorem checkHeader_error_no_partial_update_witness :
    CheckHeaderAndUpdateState acceptAllEnv demoCS [([0], [1])]
        (.header ⟨4, 100, [], 1, "d"⟩) =
      ⟨none, none, some (seqMismatchErr 4 5), [([0], [1])]⟩ :=
  checkHeader_error_no_partial_update acceptAllEnv demoCS [([0], [1])]
    (.header ⟨4, 100, [], 1, "d"⟩) (seqMismatchErr 4 5) (by decide)

/-- Claim C9: rejection is deterministic and idempotent — a rejecting call
returns no new state and leaves the store as given, and running the very same
call again on the state left behind by the first produces the identical result
with the same error. -/
theorem checkHeader_rejection_idempotent
    (env : Env) (cs : ClientState) (store : KVStore) (input : HeaderInput) (e : Err)
    (herr : (CheckHeaderAndUpdateState env cs store input).err = some e) :
    (CheckHeaderAndUpdateState env cs store input).clientState = none ∧
    (CheckHeaderAndUpdateState env cs store input).consensusState = none ∧
    (CheckHeaderAndUpdateState env cs store input).store = store ∧
    CheckHeaderAndUpdateState env cs
        ((CheckHeaderAndUpdateState env cs store input).store) input =
      CheckHeaderAndUpdateState env cs store input ∧
    (CheckHeaderAndUpdateState env cs
        ((CheckHeaderAndUpdateState env cs store input).store) input).err = some e := by
  have h1 := checkHeaderAndUpdateState_error_eq env cs store input e herr
  refine ⟨?_, ?_, ?_, ?_, ?_⟩ <;> simp [h1]

/-- Witness for C9 at a concrete rejected header (future sequence 6 against 5):
the second identical call returns the same error. -/
theorem checkHeader_rejection_idempotent_witness :
    (CheckHeaderAndUpdateState acceptAllEnv demoCS []
        (.header ⟨6, 100, [], 1, "d"⟩)).store = [] ∧
    (CheckHeaderAndUpdateState acceptAllEnv demoCS
        ((CheckHeaderAndUpdateState acceptAllEnv demoCS []
          (.header ⟨6, 100, [], 1, "d"⟩)).store)
        (.header ⟨6, 100, [], 1, "d"⟩)).err = some (seqMismatchErr 6 5) :=
  ⟨(checkHeader_rejection_idempotent acceptAllEnv demoCS []
      (.header ⟨6, 100, [], 1, "d"⟩) (seqMismatchErr 6 5) (by decide)).2.2.1,
    (checkHeader_rejection_idempotent acceptAllEnv demoCS []
      (.header ⟨6, 100, [], 1, "d"⟩) (seqMismatchErr 6 5) (by decide)).2.2.2.2⟩

/-- Claim C6: each misbehaviour signature is verified independently against the
current trusted key; if the first fails, the proof is rejected with the
invalid-signature error wrapped as signature one, and if the first verifies but
the second fails, it is rejected wrapped as signature two — in either case no
update happens and the client is not frozen. -/
theorem misbehaviour_bad_signature_rejected
    (env : Env) (cs : ClientState) (store : KVStore) (m : DuplicateSignatures) :
    (∀ e, verifySignatureAndData env cs m m.signatureOne = .error e →
      CheckHeaderAndUpdateState env cs store (.duplicateSignatures m) =
        ⟨none, none, some (.wrap "failed to verify signature one" e), store⟩ ∧
      CheckMisbehaviourAndUpdateState env cs m =
        .error (.wrap "failed to verify signature one" e)) ∧
    (∀ e, verifySignatureAndData env cs m m.signatureOne = .ok () →
      verifySignatureAndData env cs m m.signatureTwo = .error e →
      CheckHeaderAndUpdateState env cs store (.duplicateSignatures m) =
        ⟨none, none, some (.wrap "failed to verify signature two" e), store⟩ ∧
      CheckMisbehaviourAndUpdateState env cs m =
        .error (.wrap "failed to verify signature two" e)) := by
  constructor
  · intro e h1
    constructor
    · unfold CheckHeaderAndUpdateState VerifyHeader
      simp [h1]
    · unfold CheckMisbehaviourAndUpdateState
      simp [h1]
  · intro e h1 h2
    constructor
    · unfold CheckHeaderAndUpdateState VerifyHeader
      simp [h1, h2]
    · unfold CheckMisbehaviourAndUpdateState
      simp [h1, h2]

/-- Witness for C6: under an everything-rejecting primitive the proof fails as
signature one; under a primitive accepting only the first blob it fails as
signature two. -/
theorem misbehaviour_bad_signature_rejected_witness :
    CheckMisbehaviourAndUpdateState rejectSigEnv demoCS demoMisb =
      .error (.wrap "failed to verify signature one" (.base (.external 9))) ∧
    CheckMisbehaviourAndUpdateState rejectSecondSigEnv demoCS demoMisb =
      .error (.wrap "failed to verify signature two" (.base (.external 9))) :=
  ⟨((misbehaviour_bad_signature_rejected rejectSigEnv demoCS [] demoMisb).1
      (.base (.external 9)) rfl).2,
    ((misbehaviour_bad_signature_rejected rejectSecondSigEnv demoCS [] demoMisb).2
      (.base (.external 9)) rfl rfl).2⟩

/-- Claim C7: a misbehaviour proof whose two signatures both verify against the
current key but whose signed payloads are identical is rejected with the
no-equivocation error and the client is not frozen. -/
theorem misbehaviour_identical_data_not_frozen
    (env : Env) (cs : ClientState) (m : DuplicateSignatures)
    (h1 : verifySignatureAndData env cs m m.signatureOne = .ok ())
    (h2 : verifySignatureAndData env cs m m.signatureTwo = .ok ())
    (heq : m.signatureOne.data = m.signatureTwo.data) :
    CheckMisbehaviourAndUpdateState env cs m = .error noEquivocationErr := by
  unfold CheckMisbehaviourAndUpdateState
  simp [h1, h2, heq]

/-- Witness for C7 at a concrete proof whose two statements sign the same
payload under an accept-all primitive. -/
theorem misbehaviour_identical_data_not_frozen_witness :
    CheckMisbehaviourAndUpdateState acceptAllEnv demoCS identicalDataMisb =
      .error noEquivocationErr :=
  misbehaviour_identical_data_not_frozen acceptAllEnv demoCS identicalDataMisb
    rfl rfl rfl

/-- Claim C8 (code bug): a `DuplicateSignatures` proof that passes both
signature verifications makes `CheckHeaderAndUpdateState` fall through to
`return nil, nil, nil` — a non-error result carrying no new client state and
no new consensus state, a silent no-op success — whereas an unrecognized
variant does produce the hard `ErrInvalidType` error. -/
theorem checkHeader_duplicateSignatures_silent_noop :
    CheckHeaderAndUpdateState acceptAllEnv demoCS [] (.duplicateSignatures demoMisb) =
      ⟨none, none, none, []⟩ ∧
    CheckHeaderAndUpdateState acceptAllEnv demoCS [] (.other "unknown") =
      ⟨none, none, some (unexpectedTypeErr "unknown"), []⟩ :=
  ⟨rfl, rfl⟩

end SoloMachine
